import Mathlib

/-!
Verification of the FOIS incremental synchronization engine
(`app.py` / `fois_data.py`): a shallow embedding of the token lifecycle,
the per-endpoint fetch-filter-stamp-store pipeline, the two sink variants
(MySQL row store, Google-Sheets spreadsheet), and the runner loops.
External effects (HTTP responses, sink faults) are supplied by explicit
environment oracles; all counters (fetches, token exchanges, store calls)
are tracked in the result records.
-/

/-- Calendar date, as produced by python datetime. -/
structure Date where
  year : Nat
  month : Nat
  day : Nat
  deriving DecidableEq, Repr

def isLeapYear (y : Nat) : Bool :=
  (y % 4 == 0 && y % 100 != 0) || y % 400 == 0

def daysInMonth (y m : Nat) : Nat :=
  if m == 2 then (if isLeapYear y then 29 else 28)
  else if m == 4 || m == 6 || m == 9 || m == 11 then 30
  else 31

/-- One day before `d` in the Gregorian calendar. -/
def Date.prevDay : Date → Date
  | ⟨y, m, d⟩ =>
    if d > 1 then ⟨y, m, d - 1⟩
    else if m > 1 then ⟨y, m - 1, daysInMonth y (m - 1)⟩
    else ⟨y - 1, 12, 31⟩

/-- Embedding of `now - timedelta(days=n)`. -/
def Date.subDays : Date → Nat → Date
  | d, 0 => d
  | d, n + 1 => d.prevDay.subDays n

def pad2 (n : Nat) : String :=
  if n < 10 then "0" ++ toString n else toString n

def pad4 (n : Nat) : String :=
  if n < 10 then "000" ++ toString n
  else if n < 100 then "00" ++ toString n
  else if n < 1000 then "0" ++ toString n
  else toString n

/-- Embedding of `strftime('%d-%m-%Y')`. -/
def fmtDDMMYYYY (d : Date) : String :=
  pad2 d.day ++ "-" ++ pad2 d.month ++ "-" ++ pad4 d.year

/-- Embedding of `strftime('%Y-%m-%d')`. -/
def fmtYYYYMMDD (d : Date) : String :=
  pad4 d.year ++ "-" ++ pad2 d.month ++ "-" ++ pad2 d.day

/-- Characterwise split on a separator: the behavior of python
`s.split('-')` (and of `String.splitOn "-"`) for a one-character separator. -/
def splitOnChar (sep : Char) : List Char → List (List Char)
  | [] => [[]]
  | c :: cs =>
    if c == sep then [] :: splitOnChar sep cs
    else
      match splitOnChar sep cs with
      | [] => [[c]]
      | g :: gs => (c :: g) :: gs

/-- Decimal value of a digit string, accumulator form. -/
def digitsVal (acc : Nat) : List Char → Option Nat
  | [] => some acc
  | c :: cs => if c.isDigit then digitsVal (10 * acc + (c.toNat - 48)) cs else none

/-- Numeric value of a nonempty all-digit field, `none` otherwise. -/
def digitsToNat? (cs : List Char) : Option Nat :=
  match cs with
  | [] => none
  | _ :: _ => digitsVal 0 cs

/-- Embedding of `strptime(s, '%d-%m-%Y')` (returns `none` where python raises). -/
def parseDDMMYYYY (s : String) : Option Date :=
  match splitOnChar '-' s.data with
  | [d, m, y] =>
    match digitsToNat? d, digitsToNat? m, digitsToNat? y with
    | some dd, some mm, some yy => some ⟨yy, mm, dd⟩
    | _, _, _ => none
  | _ => none

/-- Spec-side predicate: the string has the shape of a `YYYY-MM-DD` date
(three dash-separated digit fields of widths 4, 2, 2). -/
def isYYYYMMDDFormat (s : String) : Bool :=
  match splitOnChar '-' s.data with
  | [y, m, d] =>
    y.length == 4 && m.length == 2 && d.length == 2 &&
    (digitsToNat? y).isSome && (digitsToNat? m).isSome && (digitsToNat? d).isSome
  | _ => false

/-- A JSON / pandas cell value. -/
inductive Value
  | str (s : String)
  | num (n : Nat)
  | date (d : Date)
  deriving DecidableEq, Repr

/-- Python `str(v)` on a cell value (dates render ISO `YYYY-MM-DD`). -/
def pyStr : Value → String
  | .str s => s
  | .num n => toString n
  | .date d => fmtYYYYMMDD d

/-- One JSON object / DataFrame row, as an association list. -/
abbrev Row := List (String × Value)

/-- Column access on a row: `none` models a missing key (pandas NaN cell). -/
def rowLookup (r : Row) (c : String) : Option Value :=
  (r.find? (fun p => p.1 == c)).map (fun p => p.2)

/-- A pandas DataFrame: column order plus rows. -/
structure Frame where
  cols : List String
  rows : List Row
  deriving DecidableEq, Repr

/-- Embedding of `pd.DataFrame(list_of_dicts)`: columns are the union of the
row keys in order of first appearance. -/
def frameOfRecords (rs : List Row) : Frame :=
  { cols := rs.foldl
      (fun acc r => acc ++ ((r.map Prod.fst).filter (fun k => !(acc.contains k)))) [],
    rows := rs }

/-- Embedding of `df.insert(0, "TDATE", date_str)`. -/
def stampTDATE (df : Frame) (date_str : String) : Frame :=
  { cols := "TDATE" :: df.cols,
    rows := df.rows.map (fun r => ("TDATE", Value.str date_str) :: r) }

/-- Cell list of one row in column order, as `df.values.tolist()` yields after
`astype(str)`; a missing cell prints as pandas NaN. -/
def rowCells (cols : List String) (r : Row) : List String :=
  cols.map (fun c =>
    match rowLookup r c with
    | some v => pyStr v
    | none => "nan")

-- ---------------------- FOIS API client (token lifecycle) ----------------------

/-- The mutable token fields of `FOISAPIClient`. -/
structure ClientState where
  access_token : Option String
  token_expires_at : Option Int
  deriving DecidableEq, Repr

/-- Python truthiness of the held token (`not self.access_token`):
absent or empty string counts as no token. -/
def tokenTruthy : Option String → Bool
  | none => false
  | some s => !(s == "")

/-- Embedding of `FOISAPIClient.is_token_valid` (times are seconds). -/
def is_token_valid (c : ClientState) (now : Int) : Bool :=
  match c.access_token, c.token_expires_at with
  | some t, some e => !(t == "") && decide (now < e)
  | _, _ => false

/-- A successful token-exchange response body. -/
structure TokenResponse where
  access_token : String
  expires_in : Int
  deriving DecidableEq, Repr

/-- Embedding of the success path of `FOISAPIClient.get_access_token`:
stores the token and `now + (expires_in - 60)` as the expiry. -/
def get_access_token (c : ClientState) (now : Int) (resp : TokenResponse) : ClientState :=
  { access_token := some resp.access_token,
    token_expires_at := some (now + resp.expires_in - 60) }

/-- Embedding of `FOISAPIClient.ensure_valid_token`; the third component
records whether a token exchange was performed. -/
def ensure_valid_token (c : ClientState) (now : Int) (resp : TokenResponse) :
    ClientState × Option String × Bool :=
  if is_token_valid c now then (c, c.access_token, false)
  else
    let c2 := get_access_token c now resp
    (c2, c2.access_token, true)

-- ---------------------- Endpoint configuration ----------------------

/-- The date formatter strings used by the configs (only `%d-%m-%Y` occurs). -/
inductive DateFmt
  | ddmmyyyy
  deriving DecidableEq, Repr

def DateFmt.format : DateFmt → Date → String
  | .ddmmyyyy, d => fmtDDMMYYYY d

structure DateConfig where
  formatter : DateFmt
  deltadays : Nat
  deriving DecidableEq, Repr

/-- One entry of `get_api_configs()`. -/
structure ApiConfig where
  url : String
  date_config : DateConfig
  table_name : String
  deriving DecidableEq, Repr

/-- Embedding of `get_api_configs` (identical in both scripts). -/
def get_api_configs : List ApiConfig :=
  [ { url := "https://gw.crisapis.indianrail.gov.in/t/fois.cris.in/foisrlydashb/1.0/pndgindt",
      date_config := { formatter := .ddmmyyyy, deltadays := 1 },
      table_name := "fois_indent_data" },
    { url := "https://gw.crisapis.indianrail.gov.in/t/fois.cris.in/foisrlydashb/1.0/plctresndttn",
      date_config := { formatter := .ddmmyyyy, deltadays := 1 },
      table_name := "fois_detn_data" },
    { url := "https://gw.crisapis.indianrail.gov.in/t/fois.cris.in/foisrlydashb/1.0/wghtleadntkmfrgt",
      date_config := { formatter := .ddmmyyyy, deltadays := 1 },
      table_name := "fois_od_data" } ]

/-- The target date string a pipeline run computes:
`(datetime.now() - timedelta(days=deltadays)).strftime(formatter)`. -/
def dateStrOf (cfg : ApiConfig) (nowD : Date) : String :=
  cfg.date_config.formatter.format (nowD.subDays cfg.date_config.deltadays)

-- ---------------------- MySQL sink (app.py) ----------------------

/-- The rows stored in one MySQL table (schema and the synthetic
auto-increment id column are not needed by any claim). -/
abbrev Table := List Row

/-- The database: table name to table contents. -/
abbrev Db := List (String × Table)

def dbGet (db : Db) (t : String) : Option Table :=
  (db.find? (fun p => p.1 == t)).map (fun p => p.2)

def dbSet (db : Db) (t : String) (tbl : Table) : Db :=
  (t, tbl) :: db

/-- Ensure the table exists (CREATE TABLE IF NOT EXISTS) and append the rows. -/
def appendRows (db : Db) (t : String) (rows : List Row) : Db :=
  match dbGet db t with
  | none => dbSet db t rows
  | some old => dbSet db t (old ++ rows)

/-- The value the TDATE conversions produce from a `DD-MM-YYYY` string: both
`data_exists_for_date` and `insert_data_to_mysql` run it through
`strptime(s, '%d-%m-%Y')` / `strftime('%Y-%m-%d')` and MySQL compares it as a
DATE. (On unparseable input the source raises; the pipeline only ever passes
strings it itself produced with `strftime('%d-%m-%Y')`, so that path is
unreachable and is totalized here by keeping the string.) -/
def tdateQueryValue (s : String) : Value :=
  match parseDDMMYYYY s with
  | some d => Value.date d
  | none => Value.str s

/-- Embedding of `data_exists_for_date`: a query on a missing table raises a
MySQL Error which the source catches, returning False. -/
def data_exists_for_date (db : Db) (table_name : String) (date_str : String) : Bool :=
  match dbGet db table_name with
  | none => false
  | some rows =>
    rows.any (fun r => rowLookup r "TDATE" == some (tdateQueryValue date_str))

/-- A `mysql.connector.Error`; the `client` flag marks a permanent/client
error (e.g. malformed schema) as opposed to a transient one — the source
never inspects it. -/
structure MysqlErr where
  client : Bool
  deriving DecidableEq, Repr

/-- The in-place mutation `insert_data_to_mysql` performs on one cell before
inserting: TDATE strings become dates, every other column is `astype(str)`. -/
def prepCell (col : String) (v : Value) : Value :=
  if col == "TDATE" then
    match v with
    | .str s => tdateQueryValue s
    | w => w
  else Value.str (pyStr v)

/-- The DataFrame mutation at the top of `insert_data_to_mysql` (lines
209-216 of app.py); it happens in place, so the caller's object changes. -/
def mysqlPrepare (df : Frame) : Frame :=
  if df.cols.contains "TDATE" then
    { df with rows := df.rows.map (fun r => r.map (fun p => (p.1, prepCell p.1 p.2))) }
  else
    { df with rows := df.rows.map (fun r => r.map (fun p => (p.1, Value.str (pyStr p.2)))) }

structure InsertResult where
  db : Db
  attempts : Nat
  sleeps : Nat
  stored : Bool
  result : Except MysqlErr Unit
  deriving Repr

/-- The retry loop of `insert_data_to_mysql` (`for attempt in range(retries)`):
the oracle `errs` gives, per attempt, whether the MySQL work raised (any
`Error`, transient or permanent, is caught alike); on an error the source
sleeps `delay` seconds and, on the last attempt, re-raises. An attempt either
appends all rows atomically (commit) or leaves the table unchanged. -/
def insertAttempts (rows : List Row) (table_name : String) (delay : Nat) :
    Db → List (Option MysqlErr) → Nat → InsertResult
  | db, _, 0 =>
    -- range exhausted without an attempt: the function falls through and
    -- returns None without raising (only reachable with retries = 0)
    { db := db, attempts := 0, sleeps := 0, stored := false, result := .ok () }
  | db, errs, n + 1 =>
    match errs.headD none with
    | none =>
      { db := appendRows db table_name rows, attempts := 1, sleeps := 0,
        stored := true, result := .ok () }
    | some e =>
      if n == 0 then
        { db := db, attempts := 1, sleeps := 1, stored := false, result := .error e }
      else
        let r := insertAttempts rows table_name delay db errs.tail n
        { r with attempts := r.attempts + 1, sleeps := r.sleeps + 1 }

/-- Embedding of `insert_data_to_mysql(df, table_name, connection, retries, delay)`.
The first component is the DataFrame after the in-place mutation — the very
object the caller (and the module globals) still hold. -/
def insert_data_to_mysql (df : Frame) (table_name : String) (db : Db)
    (errs : List (Option MysqlErr)) (retries delay : Nat) : Frame × InsertResult :=
  (mysqlPrepare df, insertAttempts (mysqlPrepare df).rows table_name delay db errs retries)

-- ---------------------- Google-Sheets sink (fois_data.py) ----------------------

/-- One worksheet: its materialized cell rows (`get_all_values()`). -/
abbrev Sheet := List (List String)

/-- The spreadsheet: worksheet title to worksheet. -/
abbrev Book := List (String × Sheet)

def bookGet (b : Book) (t : String) : Option Sheet :=
  (b.find? (fun p => p.1 == t)).map (fun p => p.2)

def bookSet (b : Book) (t : String) (s : Sheet) : Book :=
  (t, s) :: b

/-- A gspread `APIError`; `is500` is what the source's `'500' in str(e)`
check distinguishes. -/
structure GsErr where
  is500 : Bool
  deriving DecidableEq, Repr

structure PushResult where
  sheet : Option Sheet
  attempts : Nat
  sleeps : Nat
  stored : Bool
  result : Except GsErr Unit
  deriving Repr

/-- The retry loop of `push_df_to_gsheet`: per attempt the oracle says whether
the Sheets API raised; a 500 APIError sleeps and retries, any other APIError
is re-raised at once. A missing worksheet (WorksheetNotFound) is created with
a header row; an existing empty worksheet gets the header appended first.
When the retries are exhausted the source only logs and RETURNS NORMALLY:
no error is surfaced. -/
def pushAttempts (headers : List String) (rows : List (List String)) :
    Option Sheet → List (Option GsErr) → Nat → PushResult
  | sh, _, 0 =>
    { sheet := sh, attempts := 0, sleeps := 0, stored := false, result := .ok () }
  | sh, errs, n + 1 =>
    match errs.headD none with
    | some e =>
      if e.is500 then
        let r := pushAttempts headers rows sh errs.tail n
        { r with attempts := r.attempts + 1, sleeps := r.sleeps + 1 }
      else
        { sheet := sh, attempts := 1, sleeps := 0, stored := false, result := .error e }
    | none =>
      match sh with
      | none =>
        { sheet := some ([headers] ++ rows), attempts := 1, sleeps := 0,
          stored := true, result := .ok () }
      | some vals =>
        let vals1 := if vals.length == 0 then vals ++ [headers] else vals
        let vals2 := if rows.isEmpty then vals1 else vals1 ++ rows
        { sheet := some vals2, attempts := 1, sleeps := 0,
          stored := true, result := .ok () }

/-- Embedding of `push_df_to_gsheet(df, df_var_name, spreadsheet, retries, delay)`.
`df = df.astype(str)` rebinds a local copy, so unlike the MySQL sink the
caller's DataFrame is NOT mutated. -/
def push_df_to_gsheet (df : Frame) (df_var_name : String) (book : Book)
    (errs : List (Option GsErr)) (retries delay : Nat) : Book × PushResult :=
  let r := pushAttempts df.cols (df.rows.map (rowCells df.cols)) (bookGet book df_var_name) errs retries
  (match r.sheet with
   | some s => bookSet book df_var_name s
   | none => book, r)

/-- Embedding of `sheet_has_today`: linear scan of the worksheet comparing the
TDATE column cells (as raw strings) against `today_str`. -/
def sheet_has_today (book : Book) (df_var_name : String) (today_str : String) : Bool :=
  match bookGet book df_var_name with
  | none => false
  | some vals =>
    match vals with
    | [] => false
    | header :: rest =>
      if header.contains "TDATE" then
        let tdate_idx := header.indexOf "TDATE"
        rest.any (fun row => row.get? tdate_idx == some today_str)
      else false

-- ---------------------- Pipeline (fetch_fois_data) ----------------------

/-- Decoded body of the data GET. -/
inductive RespBody
  | jsonArrObjs (rs : List Row)  -- a JSON array whose elements are objects
  | jsonOther                    -- other valid JSON (non-array, array of non-dicts, ...)
  | notJson (text : String)      -- response.json() raises JSONDecodeError
  deriving DecidableEq, Repr

/-- Result of one `requests.get` on the data URL. -/
inductive HttpResult
  | ok (body : RespBody)
  | err (status : Option Nat)    -- RequestException; status of e.response when present
  deriving DecidableEq, Repr

/-- The python value `fetch_fois_data` returns. -/
inductive Outcome
  | pyNone
  | pyData (body : RespBody)
  | pyText (s : String)
  deriving DecidableEq, Repr

/-- An exception escaping `fetch_fois_data` (neither a RequestException nor a
JSONDecodeError, so uncaught there). -/
inductive PyExn
  | mysqlError (e : MysqlErr)
  | apiError (e : GsErr)
  | keyError                     -- pandas KeyError: od filter with srczone missing
  deriving DecidableEq, Repr

/-- The module-global namespace entries written via `globals()[table_name] = df`. -/
abbrev Globals := List (String × Frame)

def globalGet (g : Globals) (n : String) : Option Frame :=
  (g.find? (fun p => p.1 == n)).map (fun p => p.2)

def setGlobal (g : Globals) (n : String) (df : Frame) : Globals :=
  (n, df) :: g

/-- Result of the zone-filter / TDATE-stamp block (lines 276-289 of app.py,
210-223 of fois_data.py), on a nonempty array of objects. -/
inductive StampOut
  | noStore            -- filter emptied the frame: log and return data unstored
  | store (df : Frame) -- the TDATE-stamped frame handed to the sink
  | keyErr             -- df has dstnzone but no srczone: KeyError
  deriving DecidableEq, Repr

/-- The zone filter and TDATE stamp: single-zone endpoints filter on
`zone == 'WR'`; `fois_od_data` keeps rows with `dstnzone == 'WR'` or
`srczone == 'WR'` (guarded only on dstnzone being a column); if the guard
column is absent no filter is applied at all. -/
def processTabular (cfg : ApiConfig) (rs : List Row) (date_str : String) : StampOut :=
  let df := frameOfRecords rs
  let zone_column := if cfg.table_name == "fois_od_data" then "dstnzone" else "zone"
  if df.cols.contains zone_column then
    if cfg.table_name == "fois_od_data" then
      if df.cols.contains "srczone" then
        let df2 := { df with rows := df.rows.filter (fun r =>
          rowLookup r "dstnzone" == some (Value.str "WR") ||
          rowLookup r "srczone" == some (Value.str "WR")) }
        if df2.rows.isEmpty then .noStore else .store (stampTDATE df2 date_str)
      else .keyErr
    else
      let df2 := { df with rows := df.rows.filter (fun r =>
        rowLookup r zone_column == some (Value.str "WR")) }
      if df2.rows.isEmpty then .noStore else .store (stampTDATE df2 date_str)
  else .store (stampTDATE df date_str)

namespace App

/-- Environment oracle for one `app.fetch_fois_data` call: what the network
and the database do. Token exchanges are assumed to succeed. -/
structure AppEnv where
  tokenResp : TokenResponse
  fetch1 : HttpResult
  fetch2 : HttpResult
  storeErrs1 : List (Option MysqlErr)
  storeErrs2 : List (Option MysqlErr)
  deriving Repr

/-- Observable result of one `app.fetch_fois_data` call. -/
structure RunResult where
  client : ClientState
  db : Db
  globs : Globals
  outcome : Except PyExn Outcome
  fetches : Nat        -- data GETs issued
  exchanges : Nat      -- token exchanges performed
  invalidations : Nat  -- times the held token was cleared on a 401
  storeCalls : Nat     -- calls of insert_data_to_mysql
  storeSuccesses : Nat -- of those, ones whose insert committed
  deriving Repr

/-- The tail of `insert_data_to_mysql`'s caller: outcome construction after
the store call. In the 401-retry path (`swallow = true`) any raised error is
caught by `except Exception` and turned into a plain None return. -/
def afterStore (client1 : ClientState) (globs2 : Globals) (body : RespBody)
    (ins : InsertResult) (fetches exchanges invals : Nat) (swallow : Bool) : RunResult :=
  match ins.result with
  | .ok _ =>
    { client := client1, db := ins.db, globs := globs2,
      outcome := .ok (.pyData body), fetches := fetches, exchanges := exchanges,
      invalidations := invals, storeCalls := 1,
      storeSuccesses := if ins.stored then 1 else 0 }
  | .error e =>
    { client := client1, db := ins.db, globs := globs2,
      outcome := if swallow then .ok .pyNone else .error (.mysqlError e),
      fetches := fetches, exchanges := exchanges, invalidations := invals,
      storeCalls := 1, storeSuccesses := 0 }

/-- Lines 274-298 (first path) / 315-333 (retry path) of app.py: decode the
body, filter, stamp, write the frame into the module globals, store. -/
def handleBody (cfg : ApiConfig) (table_name date_str : String) (client1 : ClientState)
    (db : Db) (globs : Globals) (errs : List (Option MysqlErr)) (body : RespBody)
    (fetches exchanges invals : Nat) (swallow : Bool) : RunResult :=
  match body with
  | .notJson t =>
    { client := client1, db := db, globs := globs,
      outcome := if swallow then .ok .pyNone else .ok (.pyText t),
      fetches := fetches, exchanges := exchanges, invalidations := invals,
      storeCalls := 0, storeSuccesses := 0 }
  | .jsonOther =>
    { client := client1, db := db, globs := globs, outcome := .ok (.pyData .jsonOther),
      fetches := fetches, exchanges := exchanges, invalidations := invals,
      storeCalls := 0, storeSuccesses := 0 }
  | .jsonArrObjs rs =>
    if rs.isEmpty then
      { client := client1, db := db, globs := globs,
        outcome := .ok (.pyData (.jsonArrObjs rs)),
        fetches := fetches, exchanges := exchanges, invalidations := invals,
        storeCalls := 0, storeSuccesses := 0 }
    else
      match processTabular cfg rs date_str with
      | .noStore =>
        { client := client1, db := db, globs := globs,
          outcome := .ok (.pyData (.jsonArrObjs rs)),
          fetches := fetches, exchanges := exchanges, invalidations := invals,
          storeCalls := 0, storeSuccesses := 0 }
      | .keyErr =>
        { client := client1, db := db, globs := globs,
          outcome := if swallow then .ok .pyNone else .error .keyError,
          fetches := fetches, exchanges := exchanges, invalidations := invals,
          storeCalls := 0, storeSuccesses := 0 }
      | .store df =>
        -- globals()[table_name] = df happens just before the insert; the
        -- insert then mutates that same object in place, so the final
        -- global binding holds the mutated frame.
        afterStore client1
          (setGlobal globs table_name (insert_data_to_mysql df table_name db errs 3 5).1)
          body (insert_data_to_mysql df table_name db errs 3 5).2
          fetches exchanges invals swallow

/-- Embedding of `app.fetch_fois_data(client, config, connection)`. -/
def fetch_fois_data (cfg : ApiConfig) (client : ClientState) (db : Db)
    (globs : Globals) (nowD : Date) (nowT : Int) (env : AppEnv) : RunResult :=
  let table_name := "df_" ++ cfg.table_name
  let date_str := dateStrOf cfg nowD
  if data_exists_for_date db table_name date_str then
    { client := client, db := db, globs := globs, outcome := .ok .pyNone,
      fetches := 0, exchanges := 0, invalidations := 0,
      storeCalls := 0, storeSuccesses := 0 }
  else
    let e1 := ensure_valid_token client nowT env.tokenResp
    let exc1 := if e1.2.2 then 1 else 0
    match env.fetch1 with
    | .ok body =>
      handleBody cfg table_name date_str e1.1 db globs env.storeErrs1 body 1 exc1 0 false
    | .err st =>
      if st == some 401 then
        -- client.access_token = None; client.token_expires_at = None; retry once
        let e2 := ensure_valid_token { access_token := none, token_expires_at := none }
          nowT env.tokenResp
        let exc2 := exc1 + (if e2.2.2 then 1 else 0)
        match env.fetch2 with
        | .ok body2 =>
          handleBody cfg table_name date_str e2.1 db globs env.storeErrs2 body2 2 exc2 1 true
        | .err _ =>
          { client := e2.1, db := db, globs := globs, outcome := .ok .pyNone,
            fetches := 2, exchanges := exc2, invalidations := 1,
            storeCalls := 0, storeSuccesses := 0 }
      else
        { client := e1.1, db := db, globs := globs, outcome := .ok .pyNone,
          fetches := 1, exchanges := exc1, invalidations := 0,
          storeCalls := 0, storeSuccesses := 0 }

/-- State after the per-endpoint loop of `app.main` (lines 417-428). -/
structure LoopResult where
  client : ClientState
  db : Db
  globs : Globals
  processed : Nat
  deriving Repr

/-- The per-endpoint loop of `app.main`: every call of `fetch_fois_data` sits
inside `try ... except Exception`, so the loop always advances. -/
def mainLoop : List (ApiConfig × AppEnv) → ClientState → Db → Globals → Date → Int → LoopResult
  | [], c, db, g, _, _ => { client := c, db := db, globs := g, processed := 0 }
  | (cfg, env) :: rest, c, db, g, nowD, nowT =>
    let r := fetch_fois_data cfg c db g nowD nowT env
    let t := mainLoop rest r.client r.db r.globs nowD nowT
    { t with processed := t.processed + 1 }

end App

namespace FoisData

/-- Environment oracle for one `fois_data.fetch_fois_data` call. -/
structure GsEnv where
  tokenResp : TokenResponse
  fetch1 : HttpResult
  fetch2 : HttpResult
  storeErrs1 : List (Option GsErr)
  storeErrs2 : List (Option GsErr)
  deriving Repr

/-- Observable result of one `fois_data.fetch_fois_data` call. -/
structure RunResult where
  client : ClientState
  book : Book
  globs : Globals
  outcome : Except PyExn Outcome
  fetches : Nat
  exchanges : Nat
  invalidations : Nat
  storeCalls : Nat
  storeSuccesses : Nat
  deriving Repr

/-- Outcome construction after the `push_df_to_gsheet` call; in the retry
path (`swallow = true`) a raised APIError is caught by `except Exception`. -/
def afterStore (client1 : ClientState) (book2 : Book) (globs2 : Globals)
    (body : RespBody) (pr : PushResult) (fetches exchanges invals : Nat)
    (swallow : Bool) : RunResult :=
  match pr.result with
  | .ok _ =>
    { client := client1, book := book2, globs := globs2,
      outcome := .ok (.pyData body), fetches := fetches, exchanges := exchanges,
      invalidations := invals, storeCalls := 1,
      storeSuccesses := if pr.stored then 1 else 0 }
  | .error e =>
    { client := client1, book := book2, globs := globs2,
      outcome := if swallow then .ok .pyNone else .error (.apiError e),
      fetches := fetches, exchanges := exchanges, invalidations := invals,
      storeCalls := 1, storeSuccesses := 0 }

/-- Lines 207-232 (first path) / 246-265 (retry path) of fois_data.py. -/
def handleBody (cfg : ApiConfig) (df_var_name date_str : String) (client1 : ClientState)
    (book : Book) (globs : Globals) (errs : List (Option GsErr)) (body : RespBody)
    (fetches exchanges invals : Nat) (swallow : Bool) : RunResult :=
  match body with
  | .notJson t =>
    { client := client1, book := book, globs := globs,
      outcome := if swallow then .ok .pyNone else .ok (.pyText t),
      fetches := fetches, exchanges := exchanges, invalidations := invals,
      storeCalls := 0, storeSuccesses := 0 }
  | .jsonOther =>
    { client := client1, book := book, globs := globs, outcome := .ok (.pyData .jsonOther),
      fetches := fetches, exchanges := exchanges, invalidations := invals,
      storeCalls := 0, storeSuccesses := 0 }
  | .jsonArrObjs rs =>
    if rs.isEmpty then
      { client := client1, book := book, globs := globs,
        outcome := .ok (.pyData (.jsonArrObjs rs)),
        fetches := fetches, exchanges := exchanges, invalidations := invals,
        storeCalls := 0, storeSuccesses := 0 }
    else
      match processTabular cfg rs date_str with
      | .noStore =>
        { client := client1, book := book, globs := globs,
          outcome := .ok (.pyData (.jsonArrObjs rs)),
          fetches := fetches, exchanges := exchanges, invalidations := invals,
          storeCalls := 0, storeSuccesses := 0 }
      | .keyErr =>
        { client := client1, book := book, globs := globs,
          outcome := if swallow then .ok .pyNone else .error .keyError,
          fetches := fetches, exchanges := exchanges, invalidations := invals,
          storeCalls := 0, storeSuccesses := 0 }
      | .store df =>
        afterStore client1 (push_df_to_gsheet df df_var_name book errs 3 5).1
          (setGlobal globs df_var_name df) body
          (push_df_to_gsheet df df_var_name book errs 3 5).2
          fetches exchanges invals swallow

/-- Embedding of `fois_data.fetch_fois_data(client, config, spreadsheet)`. -/
def fetch_fois_data (cfg : ApiConfig) (client : ClientState) (book : Book)
    (globs : Globals) (nowD : Date) (nowT : Int) (env : GsEnv) : RunResult :=
  let df_var_name := "df_" ++ cfg.table_name
  let date_str := dateStrOf cfg nowD
  if sheet_has_today book df_var_name date_str then
    { client := client, book := book, globs := globs, outcome := .ok .pyNone,
      fetches := 0, exchanges := 0, invalidations := 0,
      storeCalls := 0, storeSuccesses := 0 }
  else
    let e1 := ensure_valid_token client nowT env.tokenResp
    let exc1 := if e1.2.2 then 1 else 0
    match env.fetch1 with
    | .ok body =>
      handleBody cfg df_var_name date_str e1.1 book globs env.storeErrs1 body 1 exc1 0 false
    | .err st =>
      if st == some 401 then
        let e2 := ensure_valid_token { access_token := none, token_expires_at := none }
          nowT env.tokenResp
        let exc2 := exc1 + (if e2.2.2 then 1 else 0)
        match env.fetch2 with
        | .ok body2 =>
          handleBody cfg df_var_name date_str e2.1 book globs env.storeErrs2 body2 2 exc2 1 true
        | .err _ =>
          { client := e2.1, book := book, globs := globs, outcome := .ok .pyNone,
            fetches := 2, exchanges := exc2, invalidations := 1,
            storeCalls := 0, storeSuccesses := 0 }
      else
        { client := e1.1, book := book, globs := globs, outcome := .ok .pyNone,
          fetches := 1, exchanges := exc1, invalidations := 0,
          storeCalls := 0, storeSuccesses := 0 }

/-- State after the per-endpoint loop of `fois_data.main` (lines 345-353). -/
structure LoopResult where
  client : ClientState
  book : Book
  globs : Globals
  processed : Nat
  aborted : Bool
  deriving Repr

/-- The per-endpoint loop of `fois_data.main`: UNLIKE app.py there is no
per-endpoint try/except, so an exception escaping `fetch_fois_data` bubbles
to main's outer handler (which exits) and the remaining endpoints are never
processed. -/
def mainLoop : List (ApiConfig × GsEnv) → ClientState → Book → Globals → Date → Int → LoopResult
  | [], c, b, g, _, _ =>
    { client := c, book := b, globs := g, processed := 0, aborted := false }
  | (cfg, env) :: rest, c, b, g, nowD, nowT =>
    let r := fetch_fois_data cfg c b g nowD nowT env
    match r.outcome with
    | .error _ =>
      { client := r.client, book := r.book, globs := r.globs, processed := 1, aborted := true }
    | .ok _ =>
      let t := mainLoop rest r.client r.book r.globs nowD nowT
      { t with processed := t.processed + 1, aborted := t.aborted }

end FoisData

-- Concrete fixtures used by the witnesses and counterexamples: the first
-- configured endpoint, a fixed clock date, sample rows, and environments.

def cfgW : ApiConfig :=
  { url := "https://gw.crisapis.indianrail.gov.in/t/fois.cris.in/foisrlydashb/1.0/pndgindt",
    date_config := { formatter := .ddmmyyyy, deltadays := 1 },
    table_name := "fois_indent_data" }

def dW : Date := ⟨2026, 10, 12⟩

def rowsW : List Row := [[("zone", Value.str "WR")], [("zone", Value.str "ER")]]

def envW : App.AppEnv :=
  { tokenResp := { access_token := "tok", expires_in := 3600 },
    fetch1 := .ok (.jsonArrObjs rowsW), fetch2 := .err none,
    storeErrs1 := [], storeErrs2 := [] }


def dfW : Frame := stampTDATE (frameOfRecords [[("zone", Value.str "WR")]]) "11-10-2026"

def genvW : FoisData.GsEnv :=
  { tokenResp := { access_token := "tok", expires_in := 3600 },
    fetch1 := .ok (.jsonArrObjs rowsW), fetch2 := .err none,
    storeErrs1 := [], storeErrs2 := [] }

/-- Like `genvW` but the Sheets store raises a non-500 APIError, which
escapes `fois_data.fetch_fois_data`. -/
def genvErr : FoisData.GsEnv :=
  { tokenResp := { access_token := "tok", expires_in := 3600 },
    fetch1 := .ok (.jsonArrObjs rowsW), fetch2 := .err none,
    storeErrs1 := [some { is500 := false }], storeErrs2 := [] }

def cfgOdW : ApiConfig :=
  { url := "https://gw.crisapis.indianrail.gov.in/t/fois.cris.in/foisrlydashb/1.0/wghtleadntkmfrgt",
    date_config := { formatter := .ddmmyyyy, deltadays := 1 },
    table_name := "fois_od_data" }

def rowsOdW : List Row :=
  [[("srczone", Value.str "WR"), ("dstnzone", Value.str "ER")],
   [("srczone", Value.str "NR"), ("dstnzone", Value.str "SR")]]

def dbHasToday : Db :=
  [("df_fois_indent_data", [[("TDATE", Value.date ⟨2026, 10, 11⟩)]])]

def envFail : App.AppEnv :=
  { tokenResp := { access_token := "tok", expires_in := 3600 },
    fetch1 := .err (some 500), fetch2 := .err none,
    storeErrs1 := [], storeErrs2 := [] }

theorem list_map_eq_self {α : Type} {f : α → α} :
    ∀ {l : List α}, l.map f = l → ∀ x ∈ l, f x = x := by
  intro l
  induction l with
  | nil => intro _ x hx; cases hx
  | cons a t ih =>
    intro h x hx
    rw [List.map_cons] at h
    injection h with h1 h2
    rcases List.mem_cons.mp hx with rfl | hx
    · exact h1
    · exact ih h2 x hx

theorem insertAttempts_stored_db (rows : List Row) (t : String) (delay : Nat) :
    ∀ (fuel : Nat) (db : Db) (errs : List (Option MysqlErr)),
      (insertAttempts rows t delay db errs fuel).stored = true →
      (insertAttempts rows t delay db errs fuel).db = appendRows db t rows := by
  intro fuel
  induction fuel with
  | zero => intro db errs h; simp [insertAttempts] at h
  | succ n ih =>
    intro db errs h
    unfold insertAttempts at h ⊢
    cases herr : errs.headD none with
    | none => simp [herr]
    | some e =>
      simp only [herr] at h ⊢
      by_cases hn : (n == 0) = true
      · simp [hn] at h
      · simp only [Bool.not_eq_true] at hn
        simp only [hn] at h ⊢
        exact ih db errs.tail h

theorem data_exists_append (db : Db) (t ds : String) (rows : List Row) (r0 : Row)
    (hmem : r0 ∈ rows) (hr0 : rowLookup r0 "TDATE" = some (tdateQueryValue ds)) :
    data_exists_for_date (appendRows db t rows) t ds = true := by
  unfold data_exists_for_date appendRows
  cases h : dbGet db t with
  | none =>
    simp only [dbGet, dbSet, List.find?]
    simp only [beq_self_eq_true, Option.map_some]
    exact List.any_eq_true.mpr ⟨r0, hmem, by simp [hr0]⟩
  | some old =>
    simp only [dbGet, dbSet, List.find?]
    simp only [beq_self_eq_true, Option.map_some]
    exact List.any_eq_true.mpr ⟨r0, List.mem_append_right _ hmem, by simp [hr0]⟩

theorem processTabular_store (cfg : ApiConfig) (rs : List Row) (ds : String) (df : Frame)
    (hne : rs.isEmpty = false) (h : processTabular cfg rs ds = .store df) :
    ∃ base : Frame, df = stampTDATE base ds ∧ base.rows.isEmpty = false := by
  simp only [processTabular] at h
  split at h
  · split at h
    · split at h
      · split at h
        · exact absurd h (by simp)
        · injection h with h1
          exact ⟨_, h1.symm, by simp_all⟩
      · exact absurd h (by simp)
    · injection h with h1
      exact ⟨_, h1.symm, by simpa [frameOfRecords] using hne⟩
  · split at h
    · split at h
      · exact absurd h (by simp)
      · injection h with h1
        exact ⟨_, h1.symm, by simp_all⟩
    · injection h with h1
      exact ⟨_, h1.symm, by simpa [frameOfRecords] using hne⟩

theorem mysqlPrepare_stamp_mem (base : Frame) (ds : String)
    (hne : base.rows.isEmpty = false) :
    ∃ r0 ∈ (mysqlPrepare (stampTDATE base ds)).rows,
      rowLookup r0 "TDATE" = some (tdateQueryValue ds) := by
  unfold mysqlPrepare stampTDATE
  simp only [List.contains_cons, beq_self_eq_true, Bool.true_or, if_pos]
  cases hrows : base.rows with
  | nil => rw [hrows] at hne; simp at hne
  | cons r rest =>
    refine ⟨("TDATE", prepCell "TDATE" (Value.str ds)) ::
      r.map (fun p => (p.1, prepCell p.1 p.2)), ?_, ?_⟩
    · simp
    · simp [rowLookup, List.find?, prepCell]

theorem App.afterStore_success (c1 : ClientState) (g2 : Globals) (body : RespBody)
    (ins : InsertResult) (f ex inv : Nat) (sw : Bool)
    (h : (App.afterStore c1 g2 body ins f ex inv sw).storeSuccesses = 1) :
    ins.stored = true ∧ (App.afterStore c1 g2 body ins f ex inv sw).db = ins.db ∧
      (App.afterStore c1 g2 body ins f ex inv sw).storeCalls = 1 := by
  cases hres : ins.result with
  | ok u =>
    by_cases hs : ins.stored = true
    · refine ⟨hs, ?_, ?_⟩ <;> simp [App.afterStore, hres]
    · unfold App.afterStore at h
      simp [hres, hs] at h
  | error e =>
    unfold App.afterStore at h
    simp [hres] at h

theorem App.handleBody_success_exists (cfg : ApiConfig) (t ds : String) (c1 : ClientState)
    (db : Db) (g : Globals) (errs : List (Option MysqlErr)) (body : RespBody)
    (f ex inv : Nat) (sw : Bool)
    (h : (App.handleBody cfg t ds c1 db g errs body f ex inv sw).storeSuccesses = 1) :
    (App.handleBody cfg t ds c1 db g errs body f ex inv sw).storeCalls = 1 ∧
    data_exists_for_date (App.handleBody cfg t ds c1 db g errs body f ex inv sw).db t ds = true := by
  unfold App.handleBody at h ⊢
  cases body with
  | notJson s => simp at h
  | jsonOther => simp at h
  | jsonArrObjs rs =>
    simp only at h ⊢
    by_cases hrs : rs.isEmpty = true
    · simp [hrs] at h
    · simp only [Bool.not_eq_true] at hrs
      simp only [hrs, Bool.false_eq_true, if_false] at h ⊢
      cases hpt : processTabular cfg rs ds with
      | noStore => simp [hpt] at h
      | keyErr => simp [hpt] at h
      | store df =>
        simp only [hpt] at h ⊢
        have has := App.afterStore_success _ _ _ _ _ _ _ _ h
        obtain ⟨hstored, hdb, hcalls⟩ := has
        refine ⟨hcalls, ?_⟩
        rw [hdb]
        have hins : (insert_data_to_mysql df t db errs 3 5).2.db =
            appendRows db t (mysqlPrepare df).rows := by
          unfold insert_data_to_mysql at hstored ⊢
          exact insertAttempts_stored_db _ _ _ _ _ _ hstored
        rw [hins]
        obtain ⟨base, rfl, hbne⟩ := processTabular_store cfg rs ds df hrs hpt
        obtain ⟨r0, hmem, hr0⟩ := mysqlPrepare_stamp_mem base ds hbne
        exact data_exists_append db t ds _ r0 hmem hr0

theorem fetch_success_exists (cfg : ApiConfig) (client : ClientState) (db : Db)
    (g : Globals) (nowD : Date) (nowT : Int) (env : App.AppEnv)
    (h : (App.fetch_fois_data cfg client db g nowD nowT env).storeSuccesses = 1) :
    (App.fetch_fois_data cfg client db g nowD nowT env).storeCalls = 1 ∧
    data_exists_for_date (App.fetch_fois_data cfg client db g nowD nowT env).db
      ("df_" ++ cfg.table_name) (dateStrOf cfg nowD) = true := by
  unfold App.fetch_fois_data at h ⊢
  by_cases hex : data_exists_for_date db ("df_" ++ cfg.table_name) (dateStrOf cfg nowD) = true
  · simp [hex] at h
  · simp only [Bool.not_eq_true] at hex
    simp only [hex, Bool.false_eq_true, if_false] at h ⊢
    cases hf : env.fetch1 with
    | ok body =>
      simp only [hf] at h ⊢
      exact App.handleBody_success_exists _ _ _ _ _ _ _ _ _ _ _ _ h
    | err st =>
      simp only [hf] at h ⊢
      by_cases h401 : (st == some 401) = true
      · simp only [h401, if_pos] at h ⊢
        cases hf2 : env.fetch2 with
        | ok body2 =>
          simp only [hf2] at h ⊢
          exact App.handleBody_success_exists _ _ _ _ _ _ _ _ _ _ _ _ h
        | err st2 => simp [hf2] at h
      · simp [h401] at h

/-- C1: if the existence check reports the target date present, the pipeline
performs no fetch and no store and returns the skipped outcome (None); and
after a run whose store committed, a second run of the same endpoint on the
same calendar date is skipped, so exactly one store call occurs in total. -/
theorem c1_idempotence (cfg : ApiConfig) (client : ClientState) (db : Db) (g : Globals)
    (nowD : Date) (nowT : Int) (env env2 : App.AppEnv) :
    (data_exists_for_date db ("df_" ++ cfg.table_name) (dateStrOf cfg nowD) = true →
      (App.fetch_fois_data cfg client db g nowD nowT env).fetches = 0 ∧
      (App.fetch_fois_data cfg client db g nowD nowT env).storeCalls = 0 ∧
      (App.fetch_fois_data cfg client db g nowD nowT env).outcome = .ok .pyNone ∧
      (App.fetch_fois_data cfg client db g nowD nowT env).db = db) ∧
    ((App.fetch_fois_data cfg client db g nowD nowT env).storeSuccesses = 1 →
      (App.fetch_fois_data cfg client db g nowD nowT env).storeCalls = 1 ∧
      (App.fetch_fois_data cfg (App.fetch_fois_data cfg client db g nowD nowT env).client
        (App.fetch_fois_data cfg client db g nowD nowT env).db
        (App.fetch_fois_data cfg client db g nowD nowT env).globs nowD nowT env2).fetches = 0 ∧
      (App.fetch_fois_data cfg (App.fetch_fois_data cfg client db g nowD nowT env).client
        (App.fetch_fois_data cfg client db g nowD nowT env).db
        (App.fetch_fois_data cfg client db g nowD nowT env).globs nowD nowT env2).storeCalls = 0 ∧
      (App.fetch_fois_data cfg (App.fetch_fois_data cfg client db g nowD nowT env).client
        (App.fetch_fois_data cfg client db g nowD nowT env).db
        (App.fetch_fois_data cfg client db g nowD nowT env).globs nowD nowT env2).outcome =
        .ok .pyNone) := by
  constructor
  · intro hex
    refine ⟨?_, ?_, ?_, ?_⟩ <;> simp [App.fetch_fois_data, hex]
  · intro h
    obtain ⟨hc, hex2⟩ := fetch_success_exists cfg client db g nowD nowT env h
    refine ⟨hc, ?_, ?_, ?_⟩ <;>
    · generalize hgen : App.fetch_fois_data cfg client db g nowD nowT env = r1 at hex2 ⊢
      simp [App.fetch_fois_data, hex2]

theorem c1_idempotence_witness :
    (App.fetch_fois_data cfgW ⟨none, none⟩ [] [] dW 0 envW).storeSuccesses = 1 ∧
    (App.fetch_fois_data cfgW (App.fetch_fois_data cfgW ⟨none, none⟩ [] [] dW 0 envW).client
      (App.fetch_fois_data cfgW ⟨none, none⟩ [] [] dW 0 envW).db
      (App.fetch_fois_data cfgW ⟨none, none⟩ [] [] dW 0 envW).globs dW 0 envW).fetches = 0 ∧
    (App.fetch_fois_data cfgW (App.fetch_fois_data cfgW ⟨none, none⟩ [] [] dW 0 envW).client
      (App.fetch_fois_data cfgW ⟨none, none⟩ [] [] dW 0 envW).db
      (App.fetch_fois_data cfgW ⟨none, none⟩ [] [] dW 0 envW).globs dW 0 envW).outcome =
      .ok .pyNone :=
  ⟨rfl,
   ((c1_idempotence cfgW ⟨none, none⟩ [] [] dW 0 envW envW).2 rfl).2.1,
   ((c1_idempotence cfgW ⟨none, none⟩ [] [] dW 0 envW envW).2 rfl).2.2.2⟩

theorem ensure_valid_token_flag (c : ClientState) (now : Int) (resp : TokenResponse) :
    (ensure_valid_token c now resp).2.2 = !(is_token_valid c now) := by
  unfold ensure_valid_token
  by_cases h : is_token_valid c now = true <;> simp [h]

theorem App.handleBody_counters (cfg : ApiConfig) (t ds : String) (c1 : ClientState)
    (db : Db) (g : Globals) (errs : List (Option MysqlErr)) (body : RespBody)
    (f ex inv : Nat) (sw : Bool) :
    (App.handleBody cfg t ds c1 db g errs body f ex inv sw).fetches = f ∧
    (App.handleBody cfg t ds c1 db g errs body f ex inv sw).exchanges = ex ∧
    (App.handleBody cfg t ds c1 db g errs body f ex inv sw).invalidations = inv := by
  unfold App.handleBody
  cases body with
  | notJson s => simp
  | jsonOther => simp
  | jsonArrObjs rs =>
    simp only
    split
    · simp
    · cases hpt : processTabular cfg rs ds with
      | noStore => simp
      | keyErr => simp
      | store df =>
        unfold App.afterStore
        cases hres : (insert_data_to_mysql df t db errs 3 5).2.result <;> simp [hres]

/-- C2: on a 401 from the data GET the pipeline clears the token once,
re-acquires once, and retries the whole sequence exactly once; a failing
retry (any status, 401 included) yields the failure value (None) with no
further retry; a non-401 fetch failure is never retried at this layer. -/
theorem c2_401_recovery (cfg : ApiConfig) (client : ClientState) (db : Db) (g : Globals)
    (nowD : Date) (nowT : Int) (env : App.AppEnv)
    (hex : data_exists_for_date db ("df_" ++ cfg.table_name) (dateStrOf cfg nowD) = false) :
    (env.fetch1 = .err (some 401) →
      (App.fetch_fois_data cfg client db g nowD nowT env).invalidations = 1 ∧
      (App.fetch_fois_data cfg client db g nowD nowT env).fetches = 2 ∧
      (App.fetch_fois_data cfg client db g nowD nowT env).exchanges =
        (if is_token_valid client nowT then 0 else 1) + 1 ∧
      (∀ st2, env.fetch2 = .err st2 →
        (App.fetch_fois_data cfg client db g nowD nowT env).outcome = .ok .pyNone ∧
        (App.fetch_fois_data cfg client db g nowD nowT env).storeCalls = 0)) ∧
    (∀ st, env.fetch1 = .err st → st ≠ some 401 →
      (App.fetch_fois_data cfg client db g nowD nowT env).fetches = 1 ∧
      (App.fetch_fois_data cfg client db g nowD nowT env).invalidations = 0 ∧
      (App.fetch_fois_data cfg client db g nowD nowT env).outcome = .ok .pyNone ∧
      (App.fetch_fois_data cfg client db g nowD nowT env).storeCalls = 0 ∧
      (App.fetch_fois_data cfg client db g nowD nowT env).exchanges =
        (if is_token_valid client nowT then 0 else 1)) := by
  constructor
  · intro hf1
    unfold App.fetch_fois_data
    simp only [hex, Bool.false_eq_true, if_false, hf1]
    simp only [beq_self_eq_true, if_pos]
    have hflag1 := ensure_valid_token_flag client nowT env.tokenResp
    have hflag2 := ensure_valid_token_flag ⟨none, none⟩ nowT env.tokenResp
    have hv2 : is_token_valid ⟨none, none⟩ nowT = false := rfl
    rw [hv2] at hflag2
    cases hf2 : env.fetch2 with
    | ok body2 =>
      obtain ⟨hcf, hce, hci⟩ := App.handleBody_counters cfg ("df_" ++ cfg.table_name)
        (dateStrOf cfg nowD) (ensure_valid_token ⟨none, none⟩ nowT env.tokenResp).1 db g
        env.storeErrs2 body2 2
        ((if (ensure_valid_token client nowT env.tokenResp).2.2 then 1 else 0) +
          (if (ensure_valid_token ⟨none, none⟩ nowT env.tokenResp).2.2 then 1 else 0)) 1 true
      refine ⟨hci, hcf, ?_, ?_⟩
      · rw [hce, hflag1, hflag2]
        by_cases hv : is_token_valid client nowT = true <;> simp [hv]
      · intro st2 habs
        simp [hf2] at habs
    | err st2 =>
      refine ⟨by trivial, by trivial, ?_, fun _ _ => ⟨by trivial, by trivial⟩⟩
      rw [hflag1, hflag2]
      by_cases hv : is_token_valid client nowT = true <;> simp [hv]
  · intro st hf1 hne
    unfold App.fetch_fois_data
    have h401 : (st == some 401) = false := by
      cases st with
      | none => rfl
      | some n =>
        simp only [beq_eq_false_iff_ne, ne_eq, Option.some.injEq]
        intro hc
        exact hne (by rw [hc])
    simp only [hex, Bool.false_eq_true, if_false, hf1, h401]
    have hflag1 := ensure_valid_token_flag client nowT env.tokenResp
    refine ⟨by trivial, by trivial, by trivial, by trivial, ?_⟩
    rw [hflag1]
    by_cases hv : is_token_valid client nowT = true <;> simp [hv]

theorem c2_401_recovery_witness :
    (App.fetch_fois_data cfgW ⟨none, none⟩ [] [] dW 0
      { tokenResp := { access_token := "tok", expires_in := 3600 },
        fetch1 := .err (some 401), fetch2 := .err (some 401),
        storeErrs1 := [], storeErrs2 := [] }).invalidations = 1 ∧
    (App.fetch_fois_data cfgW ⟨none, none⟩ [] [] dW 0
      { tokenResp := { access_token := "tok", expires_in := 3600 },
        fetch1 := .err (some 401), fetch2 := .err (some 401),
        storeErrs1 := [], storeErrs2 := [] }).fetches = 2 ∧
    (App.fetch_fois_data cfgW ⟨none, none⟩ [] [] dW 0
      { tokenResp := { access_token := "tok", expires_in := 3600 },
        fetch1 := .err (some 401), fetch2 := .err (some 401),
        storeErrs1 := [], storeErrs2 := [] }).outcome = .ok .pyNone := by
  have h := c2_401_recovery cfgW ⟨none, none⟩ [] [] dW 0
    { tokenResp := { access_token := "tok", expires_in := 3600 },
      fetch1 := .err (some 401), fetch2 := .err (some 401),
      storeErrs1 := [], storeErrs2 := [] } rfl
  exact ⟨(h.1 rfl).1, (h.1 rfl).2.1, ((h.1 rfl).2.2.2 (some 401) rfl).1⟩

/-- C3 counterexample: in the Google-Sheets runner (`fois_data.main`) a
non-500 APIError raised by the store of endpoint 1 escapes
`fetch_fois_data`, hits main's outer handler and aborts the run: of the two
selected endpoints only one is processed. -/
theorem c3_counterexample :
    (FoisData.mainLoop [(cfgW, genvErr), (cfgW, genvW)] ⟨none, none⟩ [] [] dW 0).processed = 1 ∧
    (FoisData.mainLoop [(cfgW, genvErr), (cfgW, genvW)] ⟨none, none⟩ [] [] dW 0).aborted = true ∧
    [(cfgW, genvErr), (cfgW, genvW)].length = 2 := ⟨rfl, rfl, rfl⟩

/-- C3 amended: the MySQL runner (`app.main`) catches per-endpoint exceptions
and always processes every selected endpoint; the Sheets runner
(`fois_data.main`) continues only while `fetch_fois_data` returns normally —
an exception escaping it (only sink errors can) aborts the remaining
endpoints. -/
theorem c3_failure_isolation (l : List (ApiConfig × App.AppEnv)) (c : ClientState)
    (db : Db) (g : Globals) (nowD : Date) (nowT : Int)
    (x : ApiConfig × FoisData.GsEnv) (rest : List (ApiConfig × FoisData.GsEnv))
    (c2 : ClientState) (b : Book) (g2 : Globals) :
    (App.mainLoop l c db g nowD nowT).processed = l.length ∧
    (∀ e, (FoisData.fetch_fois_data x.1 c2 b g2 nowD nowT x.2).outcome = .error e →
      (FoisData.mainLoop (x :: rest) c2 b g2 nowD nowT).processed = 1) ∧
    (∀ o, (FoisData.fetch_fois_data x.1 c2 b g2 nowD nowT x.2).outcome = .ok o →
      (FoisData.mainLoop (x :: rest) c2 b g2 nowD nowT).processed =
        1 + (FoisData.mainLoop rest
          (FoisData.fetch_fois_data x.1 c2 b g2 nowD nowT x.2).client
          (FoisData.fetch_fois_data x.1 c2 b g2 nowD nowT x.2).book
          (FoisData.fetch_fois_data x.1 c2 b g2 nowD nowT x.2).globs nowD nowT).processed) := by
  refine ⟨?_, ?_, ?_⟩
  · induction l generalizing c db g with
    | nil => rfl
    | cons hd tl ih =>
      obtain ⟨cfg0, env0⟩ := hd
      unfold App.mainLoop
      simp only [List.length_cons]
      rw [ih]
  · intro e he
    obtain ⟨cfg0, env0⟩ := x
    unfold FoisData.mainLoop
    simp only at he ⊢
    rw [he]
  · intro o ho
    obtain ⟨cfg0, env0⟩ := x
    simp only at ho
    simp only [FoisData.mainLoop, ho]
    omega

theorem c3_failure_isolation_witness :
    (App.mainLoop [(cfgW, envW)] ⟨none, none⟩ [] [] dW 0).processed = 1 ∧
    (FoisData.mainLoop [(cfgW, genvErr), (cfgW, genvW)] ⟨none, none⟩ [] [] dW 0).processed = 1 := by
  have h := c3_failure_isolation [(cfgW, envW)] ⟨none, none⟩ [] [] dW 0
    (cfgW, genvErr) [(cfgW, genvW)] ⟨none, none⟩ [] []
  exact ⟨h.1, h.2.1 (.apiError { is500 := false }) rfl⟩

/-- C4 counterexample: a permanent/client MySQL error (`MysqlErr.client = true`)
on the first attempt does NOT propagate immediately — the source's
`except Error` catches every `mysql.connector.Error` alike, sleeps and
retries, and here succeeds on attempt 2; and the Sheets sink, after three
transient 500 failures, returns normally with nothing stored instead of
surfacing a terminal store error. -/
theorem c4_counterexample :
    (insert_data_to_mysql dfW "df_fois_indent_data" []
      [some { client := true }, none, none] 3 5).2.result = .ok () ∧
    (insert_data_to_mysql dfW "df_fois_indent_data" []
      [some { client := true }, none, none] 3 5).2.attempts = 2 ∧
    (insert_data_to_mysql dfW "df_fois_indent_data" []
      [some { client := true }, none, none] 3 5).2.stored = true ∧
    (push_df_to_gsheet dfW "df_fois_indent_data" []
      [some { is500 := true }, some { is500 := true }, some { is500 := true }] 3 5).2.result
      = .ok () ∧
    (push_df_to_gsheet dfW "df_fois_indent_data" []
      [some { is500 := true }, some { is500 := true }, some { is500 := true }] 3 5).2.stored
      = false := ⟨rfl, rfl, rfl, rfl, rfl⟩

/-- C4 amended: both sinks retry up to 3 attempts with a 5-second sleep after
each failed attempt; two failures then success commit exactly one store with
no surfaced error. MySQL treats every `mysql.connector.Error` (permanent ones
included) as retryable and raises only after the third failed attempt; Sheets
raises a non-500 APIError immediately without retry, but after three 500
failures it merely logs and returns normally — no store error is surfaced. -/
theorem c4_sink_retry (df : Frame) (t : String) (db : Db) (book : Book)
    (e1 e2 e3 : MysqlErr) (g : GsErr) (hg : g.is500 = false) :
    ((insert_data_to_mysql df t db [some e1, some e2, none] 3 5).2.result = .ok () ∧
     (insert_data_to_mysql df t db [some e1, some e2, none] 3 5).2.stored = true ∧
     (insert_data_to_mysql df t db [some e1, some e2, none] 3 5).2.attempts = 3 ∧
     (insert_data_to_mysql df t db [some e1, some e2, none] 3 5).2.sleeps = 2 ∧
     (insert_data_to_mysql df t db [some e1, some e2, none] 3 5).2.db =
       appendRows db t (mysqlPrepare df).rows) ∧
    ((insert_data_to_mysql df t db [some e1, some e2, some e3] 3 5).2.result = .error e3 ∧
     (insert_data_to_mysql df t db [some e1, some e2, some e3] 3 5).2.attempts = 3 ∧
     (insert_data_to_mysql df t db [some e1, some e2, some e3] 3 5).2.stored = false) ∧
    ((push_df_to_gsheet df t book [some { is500 := true }, some { is500 := true }, none] 3 5).2.result
       = .ok () ∧
     (push_df_to_gsheet df t book [some { is500 := true }, some { is500 := true }, none] 3 5).2.stored
       = true ∧
     (push_df_to_gsheet df t book [some { is500 := true }, some { is500 := true }, none] 3 5).2.sleeps
       = 2) ∧
    ((push_df_to_gsheet df t book [some g] 3 5).2.result = .error g ∧
     (push_df_to_gsheet df t book [some g] 3 5).2.attempts = 1 ∧
     (push_df_to_gsheet df t book [some g] 3 5).2.sleeps = 0) ∧
    ((push_df_to_gsheet df t book
        [some { is500 := true }, some { is500 := true }, some { is500 := true }] 3 5).2.result
       = .ok () ∧
     (push_df_to_gsheet df t book
        [some { is500 := true }, some { is500 := true }, some { is500 := true }] 3 5).2.stored
       = false) := by
  refine ⟨⟨rfl, rfl, rfl, rfl, rfl⟩, ⟨rfl, rfl, rfl⟩, ?_, ?_, ?_⟩
  · cases hsh : bookGet book t with
    | none => simp [push_df_to_gsheet, pushAttempts, hsh]
    | some vals => simp [push_df_to_gsheet, pushAttempts, hsh]
  · simp [push_df_to_gsheet, pushAttempts, hg]
  · cases hsh : bookGet book t with
    | none => simp [push_df_to_gsheet, pushAttempts, hsh]
    | some vals => simp [push_df_to_gsheet, pushAttempts, hsh]

theorem c4_sink_retry_witness :
    GsErr.is500 { is500 := false } = false ∧
    (push_df_to_gsheet dfW "df_fois_indent_data" [] [some { is500 := false }] 3 5).2.result
      = .error { is500 := false } :=
  ⟨rfl, (c4_sink_retry dfW "df_fois_indent_data" [] []
    { client := true } { client := true } { client := true } { is500 := false } rfl).2.2.2.1.1⟩

/-- C5: on a dataset whose columns include the guard column, a single-zone
endpoint keeps exactly the rows whose `zone` cell equals "WR", and the
`fois_od_data` endpoint keeps exactly the rows where `dstnzone` or `srczone`
equals "WR"; survivors are stored TDATE-stamped, and an emptied frame yields
the no-store outcome. -/
theorem c5_zone_filtering (cfg cfg2 : ApiConfig) (rs rs2 : List Row) (ds : String) :
    (cfg.table_name ≠ "fois_od_data" →
     (frameOfRecords rs).cols.contains "zone" = true →
      processTabular cfg rs ds =
        (if (rs.filter (fun r => rowLookup r "zone" == some (Value.str "WR"))).isEmpty
         then StampOut.noStore
         else StampOut.store (stampTDATE
           { cols := (frameOfRecords rs).cols,
             rows := rs.filter (fun r => rowLookup r "zone" == some (Value.str "WR")) } ds))) ∧
    (cfg2.table_name = "fois_od_data" →
     (frameOfRecords rs2).cols.contains "dstnzone" = true →
     (frameOfRecords rs2).cols.contains "srczone" = true →
      processTabular cfg2 rs2 ds =
        (if (rs2.filter (fun r => rowLookup r "dstnzone" == some (Value.str "WR") ||
              rowLookup r "srczone" == some (Value.str "WR"))).isEmpty
         then StampOut.noStore
         else StampOut.store (stampTDATE
           { cols := (frameOfRecords rs2).cols,
             rows := rs2.filter (fun r => rowLookup r "dstnzone" == some (Value.str "WR") ||
               rowLookup r "srczone" == some (Value.str "WR")) } ds))) := by
  constructor
  · intro hn hcol
    have hb : (cfg.table_name == "fois_od_data") = false := beq_eq_false_iff_ne.mpr hn
    simp only [processTabular, hb, Bool.false_eq_true, if_false, hcol, if_true]
    rfl
  · intro he hcold hcols
    have hb : (cfg2.table_name == "fois_od_data") = true := beq_iff_eq.mpr he
    simp only [processTabular, hb, if_true, hcold, hcols]
    rfl

theorem c5_zone_filtering_witness :
    processTabular cfgW rowsW "11-10-2026" =
      StampOut.store ⟨["TDATE", "zone"],
        [[("TDATE", Value.str "11-10-2026"), ("zone", Value.str "WR")]]⟩ ∧
    processTabular cfgOdW rowsOdW "11-10-2026" =
      StampOut.store ⟨["TDATE", "srczone", "dstnzone"],
        [[("TDATE", Value.str "11-10-2026"), ("srczone", Value.str "WR"),
          ("dstnzone", Value.str "ER")]]⟩ := by
  have h := c5_zone_filtering cfgW cfgOdW rowsW rowsOdW "11-10-2026"
  exact ⟨(h.1 (by decide) rfl).trans rfl, (h.2 rfl rfl rfl).trans rfl⟩

theorem ensure_valid_token_keeps (c : ClientState) (now : Int) (resp : TokenResponse)
    (h : is_token_valid c now = true) : (ensure_valid_token c now resp).1 = c := by
  simp [ensure_valid_token, h]

/-- C6: `ensure_valid_token` exchanges iff no token is held (absent or empty)
or the stored expiry is not in the future; the expiry recorded on acquisition
is `now + expires_in - 60`; and two calls within the validity window perform
exactly one exchange, the second returning the state unchanged. -/
theorem c6_token_reuse (c : ClientState) (now t1 t2 : Int) (resp : TokenResponse)
    (hcons : tokenTruthy c.access_token = true → c.token_expires_at.isSome)
    (htok : resp.access_token ≠ "") (hwin : t2 < t1 + resp.expires_in - 60) :
    ((ensure_valid_token c now resp).2.2 = true ↔
      (tokenTruthy c.access_token = false ∨
        ∃ e, c.token_expires_at = some e ∧ e ≤ now)) ∧
    ((get_access_token c now resp).token_expires_at = some (now + resp.expires_in - 60)) ∧
    ((ensure_valid_token (ClientState.mk none none) t1 resp).2.2 = true ∧
     (ensure_valid_token ((ensure_valid_token (ClientState.mk none none) t1 resp).1) t2 resp).2.2
       = false ∧
     (ensure_valid_token ((ensure_valid_token (ClientState.mk none none) t1 resp).1) t2 resp).1 =
       (ensure_valid_token (ClientState.mk none none) t1 resp).1) := by
  have hvalid : is_token_valid ((ensure_valid_token (ClientState.mk none none) t1 resp).1) t2
      = true := by
    show is_token_valid (get_access_token (ClientState.mk none none) t1 resp) t2 = true
    simp only [is_token_valid, get_access_token]
    rw [Bool.and_eq_true]
    refine ⟨?_, decide_eq_true hwin⟩
    rw [beq_eq_false_iff_ne.mpr htok]
    rfl
  refine ⟨?_, rfl, rfl, ?_, ?_⟩
  · rw [ensure_valid_token_flag]
    cases hat : c.access_token with
    | none => simp [is_token_valid, hat, tokenTruthy]
    | some s =>
      cases het : c.token_expires_at with
      | none =>
        have hs : (s == "") = true := by
          cases hcase : (s == "") with
          | true => rfl
          | false =>
            have h2 := hcons (by simp [hat, tokenTruthy, hcase])
            rw [het] at h2
            simp at h2
        simp [is_token_valid, hat, het, tokenTruthy, hs]
      | some e =>
        simp only [is_token_valid, hat, het, tokenTruthy, Option.some.injEq]
        by_cases hs : (s == "") = true
        · simp [hs]
        · have hs2 : (s == "") = false := by simpa using hs
          simp only [hs2, Bool.not_false, Bool.true_and, Bool.not_eq_true,
            decide_eq_false_iff_not, Int.not_lt]
          constructor
          · intro hle
            right
            exact ⟨e, rfl, by simpa using hle⟩
          · rintro (hfalse | ⟨e2, he2, hle⟩)
            · exact absurd hfalse (by simp)
            · subst he2
              simpa using hle
  · rw [ensure_valid_token_flag, hvalid]
    rfl
  · exact ensure_valid_token_keeps _ t2 resp hvalid

theorem c6_token_reuse_witness :
    (ensure_valid_token (ClientState.mk none none) 1000
      { access_token := "tok", expires_in := 3600 }).2.2 = true ∧
    (ensure_valid_token ((ensure_valid_token (ClientState.mk none none) 1000
      { access_token := "tok", expires_in := 3600 }).1) 2000
      { access_token := "tok", expires_in := 3600 }).2.2 = false := by
  have h := c6_token_reuse (ClientState.mk none none) 0 1000 2000
    { access_token := "tok", expires_in := 3600 }
    (by simp [tokenTruthy]) (by decide) (by decide)
  exact ⟨h.2.2.1, h.2.2.2.1⟩

/-- C7 counterexample: the spreadsheet sink stores and compares TDATE as the
endpoint's DD-MM-YYYY string, not in YYYY-MM-DD format: a successful run
writes the cell "11-10-2026", that string is not YYYY-MM-DD shaped, and the
dedup scan does not even match the YYYY-MM-DD rendering of the same date. -/
theorem c7_counterexample :
    bookGet (FoisData.fetch_fois_data cfgW ⟨none, none⟩ [] [] dW 0 genvW).book
      "df_fois_indent_data" = some [["TDATE", "zone"], ["11-10-2026", "WR"]] ∧
    isYYYYMMDDFormat "11-10-2026" = false ∧
    sheet_has_today (FoisData.fetch_fois_data cfgW ⟨none, none⟩ [] [] dW 0 genvW).book
      "df_fois_indent_data" "2026-10-11" = false := ⟨rfl, rfl, rfl⟩

/-- C7 amended: TDATE is inserted as the leading column with the target date
string in every surviving row; the MySQL sink converts those strings into
native dates (rendered YYYY-MM-DD), while the spreadsheet sink writes the
DD-MM-YYYY string verbatim as the first cell and its dedup scan compares that
same DD-MM-YYYY string. -/
theorem c7_tdate_normalization (df : Frame) (cols : List String) (r0 : Row)
    (rest0 : List Row) (s : String) (d : Date) (r : Row) (n : String)
    (hp : parseDDMMYYYY s = some d) :
    (stampTDATE df s).cols = "TDATE" :: df.cols ∧
    (stampTDATE df s).rows = df.rows.map (fun q => ("TDATE", Value.str s) :: q) ∧
    prepCell "TDATE" (Value.str s) = Value.date d ∧
    pyStr (Value.date d) = fmtYYYYMMDD d ∧
    (mysqlPrepare (stampTDATE df s)).rows =
      (stampTDATE df s).rows.map (fun q => q.map (fun p => (p.1, prepCell p.1 p.2))) ∧
    (rowCells (stampTDATE df s).cols (("TDATE", Value.str s) :: r)).head? = some s ∧
    sheet_has_today
      (push_df_to_gsheet (stampTDATE ⟨cols, r0 :: rest0⟩ s) n [] [] 3 5).1 n s = true := by
  refine ⟨rfl, rfl, ?_, rfl, rfl, rfl, ?_⟩
  · show tdateQueryValue s = Value.date d
    unfold tdateQueryValue
    rw [hp]
  · show sheet_has_today (bookSet [] n (("TDATE" :: cols) ::
      rowCells ("TDATE" :: cols) (("TDATE", Value.str s) :: r0) ::
      (rest0.map (fun q => ("TDATE", Value.str s) :: q)).map (rowCells ("TDATE" :: cols)))) n s
      = true
    unfold sheet_has_today bookGet bookSet
    simp only [List.find?, beq_self_eq_true, Option.map_some, List.contains_cons,
      Bool.true_or, if_pos, List.indexOf_cons_self]
    refine List.any_eq_true.mpr ⟨rowCells ("TDATE" :: cols) (("TDATE", Value.str s) :: r0),
      List.mem_cons_self _ _, ?_⟩
    simp [rowCells, rowLookup, List.find?, pyStr]

theorem c7_tdate_normalization_witness :
    prepCell "TDATE" (Value.str "11-10-2026") = Value.date ⟨2026, 10, 11⟩ ∧
    sheet_has_today (push_df_to_gsheet
      (stampTDATE ⟨["zone"], [[("zone", Value.str "WR")]]⟩ "11-10-2026")
      "df_fois_indent_data" [] [] 3 5).1 "df_fois_indent_data" "11-10-2026" = true := by
  have h := c7_tdate_normalization ⟨["zone"], [[("zone", Value.str "WR")]]⟩ ["zone"]
    [("zone", Value.str "WR")] [] "11-10-2026" ⟨2026, 10, 11⟩ [] "df_fois_indent_data" rfl
  exact ⟨h.2.2.1, h.2.2.2.2.2.2⟩

/-- C8 counterexample: the skipped outcome and the fetch-failure outcome are
the very same value (None), so the caller cannot tell a skipped endpoint from
a failed one by the returned value alone. -/
theorem c8_counterexample :
    (App.fetch_fois_data cfgW ⟨none, none⟩ dbHasToday [] dW 0 envW).fetches = 0 ∧
    (App.fetch_fois_data cfgW ⟨none, none⟩ [] [] dW 0 envFail).fetches = 1 ∧
    (App.fetch_fois_data cfgW ⟨none, none⟩ dbHasToday [] dW 0 envW).outcome =
      (App.fetch_fois_data cfgW ⟨none, none⟩ [] [] dW 0 envFail).outcome := ⟨rfl, rfl, rfl⟩

/-- C8 amended: the empty outcome is distinguishable (the decoded payload,
never None) and a first-path store failure surfaces as an exception; but the
skipped outcome is the plain None value, identical to the value returned for
non-401 fetch failures, so skip vs fetch-failure is not distinguishable from
the return value. -/
theorem c8_outcomes (cfg : ApiConfig) (client : ClientState) (db : Db) (g : Globals)
    (nowD : Date) (nowT : Int) (env : App.AppEnv) (rs : List Row) (df : Frame)
    (st : Option Nat) (e : MysqlErr) :
    (data_exists_for_date db ("df_" ++ cfg.table_name) (dateStrOf cfg nowD) = true →
      (App.fetch_fois_data cfg client db g nowD nowT env).outcome = .ok .pyNone) ∧
    (data_exists_for_date db ("df_" ++ cfg.table_name) (dateStrOf cfg nowD) = false →
      env.fetch1 = .err st → st ≠ some 401 →
      (App.fetch_fois_data cfg client db g nowD nowT env).outcome = .ok .pyNone) ∧
    (data_exists_for_date db ("df_" ++ cfg.table_name) (dateStrOf cfg nowD) = false →
      env.fetch1 = .ok (.jsonArrObjs rs) → rs.isEmpty = false →
      processTabular cfg rs (dateStrOf cfg nowD) = .noStore →
      (App.fetch_fois_data cfg client db g nowD nowT env).outcome =
        .ok (.pyData (.jsonArrObjs rs)) ∧
      (Outcome.pyData (.jsonArrObjs rs) ≠ Outcome.pyNone)) ∧
    (data_exists_for_date db ("df_" ++ cfg.table_name) (dateStrOf cfg nowD) = false →
      env.fetch1 = .ok (.jsonArrObjs rs) → rs.isEmpty = false →
      processTabular cfg rs (dateStrOf cfg nowD) = .store df →
      (insert_data_to_mysql df ("df_" ++ cfg.table_name) db env.storeErrs1 3 5).2.result
        = .error e →
      (App.fetch_fois_data cfg client db g nowD nowT env).outcome = .error (.mysqlError e)) := by
  refine ⟨?_, ?_, ?_, ?_⟩
  · intro hex
    simp [App.fetch_fois_data, hex]
  · intro hex hf hne
    have h401 : (st == some 401) = false := by
      cases st with
      | none => rfl
      | some m =>
        simp only [beq_eq_false_iff_ne, ne_eq, Option.some.injEq]
        intro hc
        exact hne (by rw [hc])
    simp [App.fetch_fois_data, hex, hf, h401]
  · intro hex hf hrs hpt
    refine ⟨?_, by simp⟩
    simp [App.fetch_fois_data, App.handleBody, hex, hf, hrs, hpt]
  · intro hex hf hrs hpt hres
    simp [App.fetch_fois_data, App.handleBody, App.afterStore, hex, hf, hrs, hpt, hres]

theorem c8_outcomes_witness :
    (App.fetch_fois_data cfgW ⟨none, none⟩ dbHasToday [] dW 0 envW).outcome = .ok .pyNone ∧
    (App.fetch_fois_data cfgW ⟨none, none⟩ [] [] dW 0 envFail).outcome = .ok .pyNone := by
  have h1 := c8_outcomes cfgW ⟨none, none⟩ dbHasToday [] dW 0 envW [] dfW (some 500)
    { client := true }
  have h2 := c8_outcomes cfgW ⟨none, none⟩ [] [] dW 0 envFail [] dfW (some 500)
    { client := true }
  exact ⟨h1.1 rfl, h2.2.1 rfl rfl (by decide)⟩

theorem App.afterStore_globs (c1 : ClientState) (g2 : Globals) (body : RespBody)
    (ins : InsertResult) (f ex inv : Nat) (sw : Bool) :
    (App.afterStore c1 g2 body ins f ex inv sw).globs = g2 := by
  unfold App.afterStore
  cases ins.result <;> rfl

theorem App.handleBody_store_globals (cfg : ApiConfig) (t ds : String) (c1 : ClientState)
    (db : Db) (g : Globals) (errs : List (Option MysqlErr)) (body : RespBody)
    (f ex inv : Nat) (sw : Bool)
    (h : 1 ≤ (App.handleBody cfg t ds c1 db g errs body f ex inv sw).storeCalls) :
    ∃ df0, globalGet (App.handleBody cfg t ds c1 db g errs body f ex inv sw).globs t
      = some df0 := by
  unfold App.handleBody at h ⊢
  cases body with
  | notJson s => simp at h
  | jsonOther => simp at h
  | jsonArrObjs rs =>
    simp only at h ⊢
    by_cases hrs : rs.isEmpty = true
    · simp [hrs] at h
    · simp only [Bool.not_eq_true] at hrs
      simp only [hrs, Bool.false_eq_true, if_false] at h ⊢
      cases hpt : processTabular cfg rs ds with
      | noStore => simp [hpt] at h
      | keyErr => simp [hpt] at h
      | store df =>
        simp only [hpt]
        refine ⟨(insert_data_to_mysql df t db errs 3 5).1, ?_⟩
        rw [App.afterStore_globs]
        simp [globalGet, setGlobal]

/-- C9 amended: the dataset is returned to the caller, but the pipeline ALSO
writes the filtered, stamped DataFrame into the process-global namespace
under df_<table_name> whenever it reaches the store step, so a process-wide
mutable per-dataset table does exist after such a call. -/
theorem c9_globals (cfg : ApiConfig) (client : ClientState) (db : Db) (g : Globals)
    (nowD : Date) (nowT : Int) (env : App.AppEnv)
    (h : 1 ≤ (App.fetch_fois_data cfg client db g nowD nowT env).storeCalls) :
    ∃ df0, globalGet (App.fetch_fois_data cfg client db g nowD nowT env).globs
      ("df_" ++ cfg.table_name) = some df0 := by
  unfold App.fetch_fois_data at h ⊢
  by_cases hex : data_exists_for_date db ("df_" ++ cfg.table_name) (dateStrOf cfg nowD) = true
  · simp [hex] at h
  · simp only [Bool.not_eq_true] at hex
    simp only [hex, Bool.false_eq_true, if_false] at h ⊢
    cases hf : env.fetch1 with
    | ok body =>
      simp only [hf] at h ⊢
      exact App.handleBody_store_globals _ _ _ _ _ _ _ _ _ _ _ _ h
    | err st =>
      simp only [hf] at h ⊢
      by_cases h401 : (st == some 401) = true
      · simp only [h401, if_pos] at h ⊢
        cases hf2 : env.fetch2 with
        | ok body2 =>
          simp only [hf2] at h ⊢
          exact App.handleBody_store_globals _ _ _ _ _ _ _ _ _ _ _ _ h
        | err st2 => simp [hf2] at h
      · simp [h401] at h

/-- C9 counterexample: a successful run of the pipeline leaves the fetched,
filtered dataset bound in the module-global namespace (the source's
globals()[table_name] = df), refuting the claim that no shared per-dataset
state exists after the call. -/
theorem c9_counterexample :
    globalGet (App.fetch_fois_data cfgW ⟨none, none⟩ [] [] dW 0 envW).globs
      "df_fois_indent_data" =
      some ⟨["TDATE", "zone"],
        [[("TDATE", Value.date ⟨2026, 10, 11⟩), ("zone", Value.str "WR")]]⟩ := rfl

theorem c9_globals_witness :
    ∃ df0, globalGet (App.fetch_fois_data cfgW ⟨none, none⟩ [] [] dW 0 envW).globs
      ("df_" ++ cfgW.table_name) = some df0 :=
  c9_globals cfgW ⟨none, none⟩ [] [] dW 0 envW (by decide)

/-- C10: `insert_data_to_mysql` mutates its DataFrame argument in place before
writing: the frame the caller still holds equals `mysqlPrepare df`, in which
every non-TDATE cell is cast to its string rendering, and which differs from
the frame as originally built because the TDATE cells turn from DD-MM-YYYY
strings into date values. -/
theorem c10_inplace_mutation (df : Frame) (t : String) (db : Db)
    (errs : List (Option MysqlErr)) (retries delay : Nat)
    (r0 : Row) (s : String) (d : Date)
    (hmem : r0 ∈ df.rows) (hcell : ("TDATE", Value.str s) ∈ r0)
    (hp : parseDDMMYYYY s = some d) (hcols : df.cols.contains "TDATE" = true) :
    (insert_data_to_mysql df t db errs retries delay).1 = mysqlPrepare df ∧
    (∀ c v, c ≠ "TDATE" → prepCell c v = Value.str (pyStr v)) ∧
    mysqlPrepare df ≠ df := by
  refine ⟨rfl, ?_, ?_⟩
  · intro c v hc
    simp [prepCell, hc]
  · intro heq
    have heq2 : df.rows.map (fun q => q.map (fun p => (p.1, prepCell p.1 p.2))) = df.rows := by
      have h3 : mysqlPrepare df =
          { df with rows := df.rows.map (fun q => q.map (fun p => (p.1, prepCell p.1 p.2))) } := by
        unfold mysqlPrepare
        exact if_pos hcols
      rw [h3] at heq
      exact congrArg Frame.rows heq
    have h1 := list_map_eq_self heq2 r0 hmem
    have h2 := list_map_eq_self h1 _ hcell
    have h4 : prepCell "TDATE" (Value.str s) = Value.str s := congrArg Prod.snd h2
    simp [prepCell, tdateQueryValue, hp] at h4

theorem c10_inplace_mutation_witness :
    mysqlPrepare dfW ≠ dfW :=
  (c10_inplace_mutation dfW "df_fois_indent_data" [] [] 3 5
    [("TDATE", Value.str "11-10-2026"), ("zone", Value.str "WR")] "11-10-2026"
    ⟨2026, 10, 11⟩ (by decide) (by decide) rfl rfl).2.2
